import Mathlib

/-!
Verification of the request-time security pipeline of PropChain-BackEnd:
the `SecurityMiddleware` (client-IP resolution, blocklist check, DDoS
traffic monitoring, auto-block check, header application, context attach,
fail-open error handling).

The middleware source is `SecurityMiddleware.use` and
`SecurityMiddleware.getClientIp`.  The three injected services
(IpBlockingService, DdosProtectionService, SecurityHeadersService) are
external collaborators: they are modelled as oracles returning
`Except Err _`, since every awaited service call may throw and the
middleware's try/catch is exactly about that.  Machine strings are Lean
`String`s; JavaScript truthiness of a possibly-undefined string
(`x || y`) is modelled explicitly (`undefined` and `""` are falsy).
-/

namespace SecurityMiddleware

/-- Error values thrown by a collaborator (opaque to the middleware). -/
abbrev Err := String

/-- A transport endpoint (`req.connection` / `req.socket`): the
`remoteAddress` property may be absent. -/
structure Conn where
  remoteAddress : Option String
deriving DecidableEq, Repr

/-- The request headers read by the middleware.  A missing header is
`none` (JavaScript `undefined`). -/
structure ReqHeaders where
  xForwardedFor : Option String
  xRealIp : Option String
  userAgent : Option String
deriving DecidableEq, Repr

/-- The part of the Express request the middleware consumes.
`connection` and `socket` themselves may be absent (optional chaining
`req.connection?.` in the source). -/
structure Request where
  headers : ReqHeaders
  connection : Option Conn
  socket : Option Conn
  path : String
deriving DecidableEq, Repr

/-- JavaScript `a || b` where `a` is a possibly-undefined string:
`undefined` and the empty string are falsy and fall through to `b`. -/
def jsOrElse (a : Option String) (b : String) : String :=
  match a with
  | some s => if s = "" then b else s
  | none => b

/-- JavaScript `s.split(',')[0]`: the characters before the first comma
(`split` always yields at least one entry, so index 0 is defined). -/
def jsFirstEntry (s : String) : String :=
  ⟨s.data.takeWhile (fun c => c != ',')⟩

/-- JavaScript `s.trim()`: strip whitespace from both ends. -/
def jsTrim (s : String) : String :=
  ⟨((s.data.dropWhile Char.isWhitespace).reverse.dropWhile
      Char.isWhitespace).reverse⟩

/-- The candidate drawn from `x-forwarded-for`:
`h?.toString().split(',')[0]?.trim()` — first comma-separated entry,
trimmed. -/
def fwdCandidate (h : Option String) : Option String :=
  h.map (fun s => jsTrim (jsFirstEntry s))

/-- `SecurityMiddleware.getClientIp`, line for line:

```
return (
  req.headers['x-forwarded-for']?.toString().split(',')[0]?.trim() ||
  req.headers['x-real-ip']?.toString() ||
  req.connection?.remoteAddress ||
  req.socket?.remoteAddress ||
  'unknown'
);
```
-/
def getClientIp (req : Request) : String :=
  jsOrElse (fwdCandidate req.headers.xForwardedFor)
    (jsOrElse req.headers.xRealIp
      (jsOrElse (req.connection.bind Conn.remoteAddress)
        (jsOrElse (req.socket.bind Conn.remoteAddress) "unknown")))

/-- The ordered candidate list of the spec's ClientIdentifier:
forwarded-for first entry, real-ip header, connection remote address,
socket remote address. -/
def clientIpCandidates (req : Request) : List (Option String) :=
  [fwdCandidate req.headers.xForwardedFor,
   req.headers.xRealIp,
   req.connection.bind Conn.remoteAddress,
   req.socket.bind Conn.remoteAddress]

/-- Modelled from the spec: "Precedence, first match wins" — the first
candidate that is present and non-empty. -/
def firstPresent : List (Option String) → Option String
  | [] => none
  | c :: cs =>
    match c with
    | some s => if s = "" then firstPresent cs else some s
    | none => firstPresent cs

/-- A candidate source yields a usable value: it is present and
non-empty. -/
def accepted (c : Option String) : Bool :=
  match c with
  | some s => s != ""
  | none => false

/-- Some candidate source of the request is present (yields a usable,
non-rejected value). -/
def sourcePresent (req : Request) : Bool :=
  (clientIpCandidates req).any accepted

theorem foldr_jsOrElse (l : List (Option String)) (d : String) :
    List.foldr jsOrElse d l = (firstPresent l).getD d := by
  induction l with
  | nil => rfl
  | cons c cs ih =>
    cases c with
    | none => simp [jsOrElse, firstPresent, ih]
    | some s =>
      by_cases h : s = "" <;> simp [jsOrElse, firstPresent, h, ih]

theorem getClientIp_eq_walk (req : Request) :
    getClientIp req = (firstPresent (clientIpCandidates req)).getD "unknown" := by
  have h : getClientIp req = List.foldr jsOrElse "unknown" (clientIpCandidates req) := rfl
  rw [h, foldr_jsOrElse]

/-- C5: client-IP resolution is the first-match-wins walk over the
precedence list (forwarded-for first entry, real-ip, connection remote
address, socket remote address), with sentinel "unknown" when none
matches. -/
theorem getClientIp_precedence (req : Request) :
    getClientIp req = (firstPresent (clientIpCandidates req)).getD "unknown" :=
  getClientIp_eq_walk req

/-- C7: resolution is total — it always returns a non-empty string; the
candidate walk comes up empty exactly when no source is present; when no
source is present the result is the sentinel "unknown"; and when the walk
finds a candidate, that candidate is the result (the sentinel branch is
not taken). -/
theorem getClientIp_total (req : Request) :
    getClientIp req ≠ "" ∧
    (firstPresent (clientIpCandidates req) = none ↔ sourcePresent req = false) ∧
    (sourcePresent req = false → getClientIp req = "unknown") ∧
    (∀ s, firstPresent (clientIpCandidates req) = some s → getClientIp req = s) := by
  have hprec := getClientIp_eq_walk req
  have hchar : ∀ l, (firstPresent l = none ↔ l.any accepted = false) ∧
      (∀ s, firstPresent l = some s → s ≠ "") := by
    intro l
    induction l with
    | nil => simp [firstPresent]
    | cons c cs ih =>
      cases c with
      | none => simpa [firstPresent, accepted] using ih
      | some s =>
        by_cases h : s = "" <;>
          simp_all [firstPresent, accepted]
  obtain ⟨hnone, hne⟩ := hchar (clientIpCandidates req)
  refine ⟨?_, ?_, ?_, ?_⟩
  · rcases hfp : firstPresent (clientIpCandidates req) with _ | s
    · simp [hprec, hfp]
    · simpa [hprec, hfp] using hne s hfp
  · exact hnone.trans (by simp [sourcePresent])
  · intro h
    have : firstPresent (clientIpCandidates req) = none := by
      exact hnone.mpr (by simpa [sourcePresent] using h)
    simp [hprec, this]
  · intro s hs
    simp [hprec, hs]

/-- Witness for `getClientIp_total`: a request with no sources resolves
to "unknown". -/
theorem getClientIp_total_witness :
    getClientIp { headers := ⟨none, none, none⟩, connection := none,
                  socket := none, path := "/" } = "unknown" :=
  (getClientIp_total _).2.2.1 (by decide)

/-- The request with a whitespace-only `x-real-ip` header ahead of a real
connection address: the code returns the whitespace string untrimmed
instead of falling through. -/
def wsRealIpReq : Request :=
  { headers := ⟨none, some " ", none⟩,
    connection := some ⟨some "10.0.0.1"⟩,
    socket := none,
    path := "/" }

/-- C6 counterexample: the claim says every candidate is trimmed and
rejected if empty after trimming, so a whitespace-only `x-real-ip` would
fall through to the connection's remote address "10.0.0.1".  The code
does not trim the `x-real-ip` candidate: it returns " " verbatim. -/
theorem getClientIp_not_all_trimmed :
    getClientIp wsRealIpReq = " " ∧ jsTrim " " = "" ∧
    getClientIp wsRealIpReq ≠ "10.0.0.1" := by
  refine ⟨by rfl, by decide, by decide⟩

/-- `req` with the forwarded-for header removed. -/
def dropFwd (req : Request) : Request :=
  { req with headers := { req.headers with xForwardedFor := none } }

/-- `req` with the real-ip header removed. -/
def dropRealIp (req : Request) : Request :=
  { req with headers := { req.headers with xRealIp := none } }

/-- `req` with the connection removed. -/
def dropConn (req : Request) : Request :=
  { req with connection := none }

/-- `req` with the socket removed. -/
def dropSocket (req : Request) : Request :=
  { req with socket := none }

/-- C6 amended: only the forwarded-for first entry is trimmed and
rejected if empty after trimming; the real-ip, connection and socket
candidates are rejected exactly when they are the empty string, without
trimming, and an accepted candidate is returned verbatim; resolution
falls through to the next source whenever a candidate is rejected. -/
theorem getClientIp_fallthrough (req : Request) :
    (∀ raw, req.headers.xForwardedFor = some raw →
       jsTrim (jsFirstEntry raw) = "" →
       getClientIp req = getClientIp (dropFwd req)) ∧
    (req.headers.xRealIp = some "" →
       getClientIp req = getClientIp (dropRealIp req)) ∧
    (req.connection.bind Conn.remoteAddress = some "" →
       getClientIp req = getClientIp (dropConn req)) ∧
    (req.socket.bind Conn.remoteAddress = some "" →
       getClientIp req = getClientIp (dropSocket req)) ∧
    (∀ t, req.headers.xRealIp = some t → t ≠ "" →
       accepted (fwdCandidate req.headers.xForwardedFor) = false →
       getClientIp req = t) := by
  refine ⟨?_, ?_, ?_, ?_, ?_⟩
  · intro raw hraw htrim
    have h2 : fwdCandidate req.headers.xForwardedFor = some "" := by
      rw [hraw]
      show some (jsTrim (jsFirstEntry raw)) = some ""
      rw [htrim]
    unfold getClientIp dropFwd
    rw [h2]
    rfl
  · intro h
    simp [getClientIp, dropRealIp, h, jsOrElse]
  · intro h
    simp [getClientIp, dropConn, h, jsOrElse]
  · intro h
    simp [getClientIp, dropSocket, h, jsOrElse]
  · intro t ht htne hrej
    rcases hf : fwdCandidate req.headers.xForwardedFor with _ | s
    · simp [getClientIp, hf, ht, jsOrElse, htne]
    · have hs : s = "" := by
        by_contra hne
        simp [accepted, hf, hne] at hrej
      simp [getClientIp, hf, hs, ht, jsOrElse, htne]

/-- A request with a present-but-empty real-ip header ahead of a
connection address. -/
def emptyRealIpReq : Request :=
  { headers := ⟨none, some "", none⟩,
    connection := some ⟨some "10.0.0.1"⟩,
    socket := none,
    path := "/" }

/-- Witness for `getClientIp_fallthrough`: a present-but-empty real-ip
header falls through to the connection address. -/
theorem getClientIp_fallthrough_witness :
    getClientIp emptyRealIpReq = getClientIp (dropRealIp emptyRealIpReq) :=
  (getClientIp_fallthrough emptyRealIpReq).2.1 rfl

/-- Result of `IpBlockingService.shouldBlockRequest` (spec data model:
`{shouldBlock: bool, reason: string|none}`). -/
structure BlockCheckResult where
  shouldBlock : Bool
  reason : Option String
deriving DecidableEq, Repr

/-- Result of `DdosProtectionService.monitorTraffic` (spec data model:
`{isAttack: bool, score: number, reason: string|none}`); the middleware
reads only `isAttack`. -/
structure AttackDecision where
  isAttack : Bool
  score : Int
  reason : Option String
deriving DecidableEq, Repr

/-- The `security` context attached to the request on pass-through. -/
structure SecurityContext where
  clientIp : String
  userAgent : String
  timestamp : Nat
deriving DecidableEq, Repr

/-- The JSON body sent on a short-circuit response.  `timestamp` is the
ISO-8601 string produced by the clock (`new Date().toISOString()`). -/
structure ErrorBody where
  statusCode : Nat
  message : String
  reason : Option String
  timestamp : String
deriving DecidableEq, Repr

/-- The clock environment: the ISO string `new Date().toISOString()`
would produce, and the epoch milliseconds `Date.now()` would return. -/
structure Clock where
  nowIso : String
  nowMs : Nat
deriving DecidableEq, Repr

/-- Observable events of one middleware run, in order: the service calls
with the arguments passed (argument order as in the source), each
response header written, and each invocation of `next()`. -/
inductive Event where
  | blockCheckCall (clientIp userAgent path : String)
  | monitorCall (clientIp path userAgent : String)
  | ddosCall (clientIp : String)
  | headerSet (name value : String)
  | nextCall
deriving DecidableEq, Repr

/-- Tag of a pipeline check call, for ordering statements. -/
inductive CheckTag where
  | block
  | monitor
  | ddos
deriving DecidableEq, Repr

/-- Project an event to its check tag, if it is a check call. -/
def checkTagOf : Event → Option CheckTag
  | .blockCheckCall _ _ _ => some .block
  | .monitorCall _ _ _ => some .monitor
  | .ddosCall _ => some .ddos
  | _ => none

/-- The check calls of a trace, in order. -/
def checkTags (tr : List Event) : List CheckTag :=
  tr.filterMap checkTagOf

/-- The outcome of one `SecurityMiddleware.use` run: everything the
middleware did to the response and the request.  The middleware never
throws — `use` returns a `MwResult`, not an `Except` — so `errored`
records the error it caught, if any. -/
structure MwResult where
  status : Option Nat
  body : Option ErrorBody
  headersWritten : List (String × String)
  secCtx : Option SecurityContext
  nextCalled : Bool
  errored : Option Err
  trace : List Event
deriving DecidableEq, Repr

/-- The stages of one run, as explicit fallible results: client
identification, the request attributes, and the awaited collaborator
calls, each of which may throw (`Except.error`). -/
structure Stages where
  identify : Except Err String
  userAgent : String
  path : String
  shouldBlockRequest : String → String → String → Except Err BlockCheckResult
  monitorTraffic : String → String → String → Except Err AttackDecision
  isIpBlockedForDdos : String → Except Err Bool
  getSecurityHeaders : Except Err (List (String × String))

/-- The catch block of `use`: log the error (out of scope) and fail open
by calling `next()`.  Nothing was or is written to the response, and no
context is attached. -/
def failOpen (e : Err) (tr : List Event) : MwResult :=
  { status := none, body := none, headersWritten := [], secCtx := none,
    nextCalled := true, errored := some e, trace := tr ++ [.nextCall] }

/-- `SecurityMiddleware.use`, stage by stage.  The source's `try`/`catch`
appears as the `.error` branch of every awaited call flowing to
`failOpen`; the early `return res.status(..).json(..)` branches are the
short-circuit results with `nextCalled := false`. -/
def useStages (st : Stages) (ck : Clock) : MwResult :=
  match st.identify with
  | .error e => failOpen e []
  | .ok clientIp =>
    match st.shouldBlockRequest clientIp st.userAgent st.path with
    | .error e => failOpen e [.blockCheckCall clientIp st.userAgent st.path]
    | .ok blockCheck =>
      if blockCheck.shouldBlock then
        { status := some 403,
          body := some { statusCode := 403, message := "Access forbidden",
                         reason := blockCheck.reason, timestamp := ck.nowIso },
          headersWritten := [], secCtx := none, nextCalled := false,
          errored := none,
          trace := [.blockCheckCall clientIp st.userAgent st.path] }
      else
        match st.monitorTraffic clientIp st.path st.userAgent with
        | .error e =>
          failOpen e [.blockCheckCall clientIp st.userAgent st.path,
                      .monitorCall clientIp st.path st.userAgent]
        | .ok ddosCheck =>
          if ddosCheck.isAttack then
            { status := some 429,
              body := some { statusCode := 429, message := "Too many requests",
                             reason := some "Potential DDoS attack detected",
                             timestamp := ck.nowIso },
              headersWritten := [], secCtx := none, nextCalled := false,
              errored := none,
              trace := [.blockCheckCall clientIp st.userAgent st.path,
                        .monitorCall clientIp st.path st.userAgent] }
          else
            match st.isIpBlockedForDdos clientIp with
            | .error e =>
              failOpen e [.blockCheckCall clientIp st.userAgent st.path,
                          .monitorCall clientIp st.path st.userAgent,
                          .ddosCall clientIp]
            | .ok blockedForDdos =>
              if blockedForDdos then
                { status := some 429,
                  body := some { statusCode := 429,
                                 message := "Too many requests",
                                 reason := some "IP blocked due to DDoS protection",
                                 timestamp := ck.nowIso },
                  headersWritten := [], secCtx := none, nextCalled := false,
                  errored := none,
                  trace := [.blockCheckCall clientIp st.userAgent st.path,
                            .monitorCall clientIp st.path st.userAgent,
                            .ddosCall clientIp] }
              else
                match st.getSecurityHeaders with
                | .error e =>
                  failOpen e [.blockCheckCall clientIp st.userAgent st.path,
                              .monitorCall clientIp st.path st.userAgent,
                              .ddosCall clientIp]
                | .ok securityHeaders =>
                  { status := none, body := none,
                    headersWritten := securityHeaders,
                    secCtx := some { clientIp := clientIp,
                                     userAgent := st.userAgent,
                                     timestamp := ck.nowMs },
                    nextCalled := true, errored := none,
                    trace := [.blockCheckCall clientIp st.userAgent st.path,
                              .monitorCall clientIp st.path st.userAgent,
                              .ddosCall clientIp]
                             ++ securityHeaders.map
                                  (fun p => Event.headerSet p.1 p.2)
                             ++ [.nextCall] }

/-- The three injected services, as fallible oracles. -/
structure Services where
  shouldBlockRequest : String → String → String → Except Err BlockCheckResult
  monitorTraffic : String → String → String → Except Err AttackDecision
  isIpBlockedForDdos : String → Except Err Bool
  getSecurityHeaders : Except Err (List (String × String))

/-- `req.headers['user-agent'] || ''`. -/
def uaOf (req : Request) : String :=
  jsOrElse req.headers.userAgent ""

/-- The stages of a concrete request against concrete services:
identification runs `getClientIp` (total, hence `.ok`), the user agent
defaults to the empty string, and the collaborator calls are the
services'. -/
def stagesOf (svc : Services) (req : Request) : Stages :=
  { identify := .ok (getClientIp req),
    userAgent := uaOf req,
    path := req.path,
    shouldBlockRequest := svc.shouldBlockRequest,
    monitorTraffic := svc.monitorTraffic,
    isIpBlockedForDdos := svc.isIpBlockedForDdos,
    getSecurityHeaders := svc.getSecurityHeaders }

/-- `SecurityMiddleware.use` on a concrete request. -/
def use (svc : Services) (req : Request) (ck : Clock) : MwResult :=
  useStages (stagesOf svc req) ck

@[simp]
theorem checkTags_headerSets (hs : List (String × String)) :
    checkTags (hs.map (fun p => Event.headerSet p.1 p.2)) = [] := by
  induction hs with
  | nil => rfl
  | cons p ps ih => simp [checkTags, checkTagOf, List.filterMap_cons, ih]

@[simp]
theorem filterMap_checkTag_headerSets (hs : List (String × String)) :
    List.filterMap (fun p : String × String =>
      checkTagOf (Event.headerSet p.1 p.2)) hs = [] := by
  induction hs with
  | nil => rfl
  | cons p ps ih => simp [checkTagOf, List.filterMap_cons, ih]

@[simp]
theorem filterMap_checkTag_comp_headerSets (hs : List (String × String)) :
    List.filterMap (checkTagOf ∘ fun p : String × String =>
      Event.headerSet p.1 p.2) hs = [] := by
  induction hs with
  | nil => rfl
  | cons p ps ih => simp [checkTagOf, List.filterMap_cons, Function.comp, ih]

@[simp]
theorem checkTags_append (l₁ l₂ : List Event) :
    checkTags (l₁ ++ l₂) = checkTags l₁ ++ checkTags l₂ := by
  simp [checkTags]

/-- C1: whenever any stage of the pipeline raises, the middleware
catches the error (recording it in `errored`), calls `next()` so the
request is forwarded, and sends no response of its own.  No exception
escapes to the caller: `useStages` returns a plain `MwResult`, never an
error. -/
theorem use_fail_open (st : Stages) (ck : Clock) :
    (useStages st ck).errored.isSome = true →
    (useStages st ck).nextCalled = true ∧ (useStages st ck).status = none := by
  unfold useStages
  repeat' split
  all_goals simp [failOpen]

/-- Fixture: stages whose blocklist lookup throws. -/
def stBlockErr : Stages :=
  { identify := .ok "203.0.113.7",
    userAgent := "curl/8",
    path := "/api",
    shouldBlockRequest := fun _ _ _ => .error "store down",
    monitorTraffic := fun _ _ _ => .ok ⟨false, 0, none⟩,
    isIpBlockedForDdos := fun _ => .ok false,
    getSecurityHeaders := .ok [] }

/-- Fixture clock. -/
def ck₀ : Clock := ⟨"2026-02-03T04:05:06.000Z", 1770000000000⟩

/-- Witness for `use_fail_open`: a throwing blocklist lookup still leads
to `next()` with no response status. -/
theorem use_fail_open_witness :
    (useStages stBlockErr ck₀).nextCalled = true ∧
    (useStages stBlockErr ck₀).status = none :=
  use_fail_open stBlockErr ck₀ (by rfl)

/-- C2: the check calls of every run happen in the fixed order
blocklist, traffic monitor, ddos-block lookup (the trace of check calls
is an initial segment of that order); `monitorTraffic` is never called
when the blocklist check rejects the request, and is called exactly once
when the blocklist check passes, whatever happens afterwards. -/
theorem use_check_order (st : Stages) (ck : Clock) :
    (checkTags (useStages st ck).trace = [] ∨
     checkTags (useStages st ck).trace = [.block] ∨
     checkTags (useStages st ck).trace = [.block, .monitor] ∨
     checkTags (useStages st ck).trace = [.block, .monitor, .ddos]) ∧
    (∀ ip b, st.identify = .ok ip →
       st.shouldBlockRequest ip st.userAgent st.path = .ok b →
       (b.shouldBlock = true →
          (checkTags (useStages st ck).trace).count CheckTag.monitor = 0) ∧
       (b.shouldBlock = false →
          (checkTags (useStages st ck).trace).count CheckTag.monitor = 1)) := by
  constructor
  · unfold useStages
    repeat' split
    all_goals simp [failOpen, checkTags, checkTagOf]
  · intro ip b h1 h2
    constructor <;> intro hb <;>
      · unfold useStages
        rw [h1]
        simp only [h2, hb]
        repeat' split
        all_goals
          simp_all [failOpen, checkTags, checkTagOf, List.count_cons,
                    Function.comp]

/-- Fixture: stages in which every check passes. -/
def stPass : Stages :=
  { identify := .ok "203.0.113.7",
    userAgent := "curl/8",
    path := "/api",
    shouldBlockRequest := fun _ _ _ => .ok ⟨false, none⟩,
    monitorTraffic := fun _ _ _ => .ok ⟨false, 0, none⟩,
    isIpBlockedForDdos := fun _ => .ok false,
    getSecurityHeaders := .ok [("X-Content-Type-Options", "nosniff")] }

/-- Witness for `use_check_order`: on a run that passes the blocklist,
the traffic monitor is called exactly once. -/
theorem use_check_order_witness :
    (checkTags (useStages stPass ck₀).trace).count CheckTag.monitor = 1 :=
  ((use_check_order stPass ck₀).2 "203.0.113.7" ⟨false, none⟩ rfl rfl).2 rfl

/-- C3: when `shouldBlockRequest` answers `shouldBlock = true`, the
middleware responds 403 with body `{statusCode: 403, message: "Access
forbidden", reason: <the returned reason>, timestamp: <the clock's ISO
string>}`, writes no headers, attaches no context, and does not call
`next()`. -/
theorem use_blocklist_403 (st : Stages) (ck : Clock) (ip : String)
    (b : BlockCheckResult) (h1 : st.identify = .ok ip)
    (h2 : st.shouldBlockRequest ip st.userAgent st.path = .ok b)
    (h3 : b.shouldBlock = true) :
    useStages st ck =
      { status := some 403,
        body := some { statusCode := 403, message := "Access forbidden",
                       reason := b.reason, timestamp := ck.nowIso },
        headersWritten := [], secCtx := none, nextCalled := false,
        errored := none,
        trace := [.blockCheckCall ip st.userAgent st.path] } := by
  unfold useStages
  rw [h1]
  simp [h2, h3]

/-- Fixture: stages whose blocklist check rejects the client. -/
def stBlocked : Stages :=
  { identify := .ok "203.0.113.7",
    userAgent := "curl/8",
    path := "/api",
    shouldBlockRequest := fun _ _ _ => .ok ⟨true, some "manual block"⟩,
    monitorTraffic := fun _ _ _ => .ok ⟨false, 0, none⟩,
    isIpBlockedForDdos := fun _ => .ok false,
    getSecurityHeaders := .ok [] }

/-- Witness for `use_blocklist_403`: the fixture's blocked client gets
the 403 response and `next()` is not called. -/
theorem use_blocklist_403_witness :
    useStages stBlocked ck₀ =
      { status := some 403,
        body := some { statusCode := 403, message := "Access forbidden",
                       reason := some "manual block",
                       timestamp := ck₀.nowIso },
        headersWritten := [], secCtx := none, nextCalled := false,
        errored := none,
        trace := [.blockCheckCall "203.0.113.7" "curl/8" "/api"] } :=
  use_blocklist_403 stBlocked ck₀ "203.0.113.7" ⟨true, some "manual block"⟩
    rfl rfl rfl

/-- C4: the traffic-monitor gate and the ddos-block gate are independent.
When `monitorTraffic` answers `isAttack = true` the middleware responds
429 with reason "Potential DDoS attack detected" and does not call
`next()`.  When it answers `isAttack = false`, the middleware still
queries `isIpBlockedForDdos` (the call appears in the trace), and an
answer of `true` produces a 429 with the distinct reason "IP blocked due
to DDoS protection", again without calling `next()`. -/
theorem use_two_ddos_gates (st : Stages) (ck : Clock) (ip : String)
    (b : BlockCheckResult) (h1 : st.identify = .ok ip)
    (h2 : st.shouldBlockRequest ip st.userAgent st.path = .ok b)
    (h3 : b.shouldBlock = false) :
    (∀ d, st.monitorTraffic ip st.path st.userAgent = .ok d →
       d.isAttack = true →
       useStages st ck =
         { status := some 429,
           body := some { statusCode := 429, message := "Too many requests",
                          reason := some "Potential DDoS attack detected",
                          timestamp := ck.nowIso },
           headersWritten := [], secCtx := none, nextCalled := false,
           errored := none,
           trace := [.blockCheckCall ip st.userAgent st.path,
                     .monitorCall ip st.path st.userAgent] }) ∧
    (∀ d, st.monitorTraffic ip st.path st.userAgent = .ok d →
       d.isAttack = false →
       Event.ddosCall ip ∈ (useStages st ck).trace ∧
       (st.isIpBlockedForDdos ip = .ok true →
          useStages st ck =
            { status := some 429,
              body := some { statusCode := 429,
                             message := "Too many requests",
                             reason := some "IP blocked due to DDoS protection",
                             timestamp := ck.nowIso },
              headersWritten := [], secCtx := none, nextCalled := false,
              errored := none,
              trace := [.blockCheckCall ip st.userAgent st.path,
                        .monitorCall ip st.path st.userAgent,
                        .ddosCall ip] })) := by
  constructor
  · intro d h4 h5
    unfold useStages
    rw [h1]
    simp [h2, h3, h4, h5]
  · intro d h4 h5
    constructor
    · unfold useStages
      rw [h1]
      simp only [h2, h3, h4, h5]
      repeat' split
      all_goals simp_all [failOpen]
    · intro h6
      unfold useStages
      rw [h1]
      simp [h2, h3, h4, h5, h6]

/-- Fixture: stages whose traffic monitor detects an attack. -/
def stAttack : Stages :=
  { identify := .ok "203.0.113.7",
    userAgent := "curl/8",
    path := "/api",
    shouldBlockRequest := fun _ _ _ => .ok ⟨false, none⟩,
    monitorTraffic := fun _ _ _ => .ok ⟨true, 100, some "burst"⟩,
    isIpBlockedForDdos := fun _ => .ok false,
    getSecurityHeaders := .ok [] }

/-- Fixture: quiet traffic but a still-active auto-block. -/
def stAutoBlocked : Stages :=
  { identify := .ok "203.0.113.7",
    userAgent := "curl/8",
    path := "/api",
    shouldBlockRequest := fun _ _ _ => .ok ⟨false, none⟩,
    monitorTraffic := fun _ _ _ => .ok ⟨false, 0, none⟩,
    isIpBlockedForDdos := fun _ => .ok true,
    getSecurityHeaders := .ok [] }

/-- Witness for `use_two_ddos_gates`: the attack fixture gets the
attack 429; the auto-blocked fixture is still checked against the
auto-block state and gets the distinct 429. -/
theorem use_two_ddos_gates_witness :
    (useStages stAttack ck₀).status = some 429 ∧
    (useStages stAttack ck₀).nextCalled = false ∧
    Event.ddosCall "203.0.113.7" ∈ (useStages stAutoBlocked ck₀).trace ∧
    (useStages stAutoBlocked ck₀).body =
      some { statusCode := 429, message := "Too many requests",
             reason := some "IP blocked due to DDoS protection",
             timestamp := ck₀.nowIso } := by
  have hAtk := (use_two_ddos_gates stAttack ck₀ "203.0.113.7" ⟨false, none⟩
    rfl rfl rfl).1 ⟨true, 100, some "burst"⟩ rfl rfl
  have hBlk := (use_two_ddos_gates stAutoBlocked ck₀ "203.0.113.7"
    ⟨false, none⟩ rfl rfl rfl).2 ⟨false, 0, none⟩ rfl rfl
  refine ⟨by rw [hAtk], by rw [hAtk], hBlk.1, by rw [hBlk.2 rfl]⟩

/-- C8: on a run in which all three checks pass without error, the
middleware writes exactly the header/value pairs returned by
`getSecurityHeaders` onto the response (each write precedes the
`next()` event in the trace), attaches the security context
`{clientIp, userAgent, timestamp}` with the resolved client IP, the
request's user agent and the clock's millisecond timestamp, and calls
`next()`. -/
theorem use_passthrough (svc : Services) (req : Request) (ck : Clock)
    (b : BlockCheckResult) (d : AttackDecision)
    (hs : List (String × String))
    (h2 : svc.shouldBlockRequest (getClientIp req) (uaOf req) req.path = .ok b)
    (h3 : b.shouldBlock = false)
    (h4 : svc.monitorTraffic (getClientIp req) req.path (uaOf req) = .ok d)
    (h5 : d.isAttack = false)
    (h6 : svc.isIpBlockedForDdos (getClientIp req) = .ok false)
    (h7 : svc.getSecurityHeaders = .ok hs) :
    use svc req ck =
      { status := none, body := none,
        headersWritten := hs,
        secCtx := some { clientIp := getClientIp req,
                         userAgent := uaOf req, timestamp := ck.nowMs },
        nextCalled := true, errored := none,
        trace := [.blockCheckCall (getClientIp req) (uaOf req) req.path,
                  .monitorCall (getClientIp req) req.path (uaOf req),
                  .ddosCall (getClientIp req)]
                 ++ hs.map (fun p => Event.headerSet p.1 p.2)
                 ++ [.nextCall] } := by
  unfold use useStages stagesOf
  simp [h2, h3, h4, h5, h6, h7]

/-- Fixture: services in which every check passes and one security
header is configured. -/
def okSvc : Services :=
  { shouldBlockRequest := fun _ _ _ => .ok ⟨false, none⟩,
    monitorTraffic := fun _ _ _ => .ok ⟨false, 0, none⟩,
    isIpBlockedForDdos := fun _ => .ok false,
    getSecurityHeaders := .ok [("X-Content-Type-Options", "nosniff")] }

/-- Fixture: a proxied request. -/
def proxiedReq : Request :=
  { headers := ⟨some "192.168.1.1, 10.0.0.1", none, some "curl/8"⟩,
    connection := none,
    socket := none,
    path := "/api" }

/-- Witness for `use_passthrough`: the fixture run writes the configured
header, attaches the context for the forwarded-for client, and calls
`next()`. -/
theorem use_passthrough_witness :
    use okSvc proxiedReq ck₀ =
      { status := none, body := none,
        headersWritten := [("X-Content-Type-Options", "nosniff")],
        secCtx := some { clientIp := "192.168.1.1", userAgent := "curl/8",
                         timestamp := ck₀.nowMs },
        nextCalled := true, errored := none,
        trace := [.blockCheckCall "192.168.1.1" "curl/8" "/api",
                  .monitorCall "192.168.1.1" "/api" "curl/8",
                  .ddosCall "192.168.1.1",
                  .headerSet "X-Content-Type-Options" "nosniff",
                  .nextCall] } := by
  have h := use_passthrough okSvc proxiedReq ck₀ ⟨false, none⟩ ⟨false, 0, none⟩
    [("X-Content-Type-Options", "nosniff")] rfl rfl rfl rfl rfl rfl
  rw [h]
  rfl

/-- Every check-call argument and the attached context carry the run's
user agent, and every monitor call its path. -/
theorem useStages_args (st : Stages) (ck : Clock) :
    (∀ ip ua p, Event.blockCheckCall ip ua p ∈ (useStages st ck).trace →
       ua = st.userAgent) ∧
    (∀ ip p ua, Event.monitorCall ip p ua ∈ (useStages st ck).trace →
       ua = st.userAgent) ∧
    (∀ c, (useStages st ck).secCtx = some c → c.userAgent = st.userAgent) := by
  refine ⟨?_, ?_, ?_⟩
  · unfold useStages
    repeat' split
    all_goals intro ip ua p h
    all_goals simp_all [failOpen]
  · unfold useStages
    repeat' split
    all_goals intro ip p ua h
    all_goals simp_all [failOpen]
  · unfold useStages
    repeat' split
    all_goals intro c h
    all_goals simp [failOpen] at h
    all_goals subst h
    all_goals rfl

/-- C9: when the user-agent header is absent, the middleware substitutes
the empty string: the userAgent argument it passes to
`shouldBlockRequest` and `monitorTraffic`, and the userAgent field of
the attached security context, are all `""`. -/
theorem use_missing_user_agent (svc : Services) (req : Request)
    (ck : Clock) (h : req.headers.userAgent = none) :
    (stagesOf svc req).userAgent = "" ∧
    (∀ ip ua p, Event.blockCheckCall ip ua p ∈ (use svc req ck).trace →
       ua = "") ∧
    (∀ ip p ua, Event.monitorCall ip p ua ∈ (use svc req ck).trace →
       ua = "") ∧
    (∀ c, (use svc req ck).secCtx = some c → c.userAgent = "") := by
  have hua : (stagesOf svc req).userAgent = "" := by
    simp [stagesOf, uaOf, jsOrElse, h]
  obtain ⟨ha, hb, hc⟩ := useStages_args (stagesOf svc req) ck
  rw [hua] at ha hb hc
  exact ⟨hua, ha, hb, hc⟩

/-- Fixture: a request without a user-agent header. -/
def noUaReq : Request :=
  { headers := ⟨none, some "198.51.100.2", none⟩,
    connection := none,
    socket := none,
    path := "/api" }

/-- Witness for `use_missing_user_agent`: the fixture request without a
user-agent header runs with the empty-string user agent, and the context
the run attaches carries it. -/
theorem use_missing_user_agent_witness :
    (stagesOf okSvc noUaReq).userAgent = "" ∧
    SecurityContext.userAgent ⟨"198.51.100.2", "", ck₀.nowMs⟩ = "" :=
  ⟨(use_missing_user_agent okSvc noUaReq ck₀ rfl).1,
   (use_missing_user_agent okSvc noUaReq ck₀ rfl).2.2.2
     ⟨"198.51.100.2", "", ck₀.nowMs⟩ rfl⟩

/-- C10: on the fail-open path the middleware forwards the request via
`next()` having written nothing to the response — no status, no body, no
security headers — and without attaching the security context to the
request. -/
theorem use_fail_open_frame (st : Stages) (ck : Clock) :
    (useStages st ck).errored.isSome = true →
    (useStages st ck).headersWritten = [] ∧
    (useStages st ck).secCtx = none ∧
    (useStages st ck).status = none ∧
    (useStages st ck).body = none ∧
    (useStages st ck).nextCalled = true := by
  unfold useStages
  repeat' split
  all_goals simp [failOpen]

/-- Fixture: stages whose ddos-block lookup throws. -/
def stDdosErr : Stages :=
  { identify := .ok "203.0.113.7",
    userAgent := "curl/8",
    path := "/api",
    shouldBlockRequest := fun _ _ _ => .ok ⟨false, none⟩,
    monitorTraffic := fun _ _ _ => .ok ⟨false, 0, none⟩,
    isIpBlockedForDdos := fun _ => .error "redis timeout",
    getSecurityHeaders := .ok [("X-Content-Type-Options", "nosniff")] }

/-- Witness for `use_fail_open_frame`: the throwing ddos lookup forwards
the request with no headers and no context. -/
theorem use_fail_open_frame_witness :
    (useStages stDdosErr ck₀).headersWritten = [] ∧
    (useStages stDdosErr ck₀).secCtx = none ∧
    (useStages stDdosErr ck₀).status = none ∧
    (useStages stDdosErr ck₀).body = none ∧
    (useStages stDdosErr ck₀).nextCalled = true :=
  use_fail_open_frame stDdosErr ck₀ (by rfl)

end SecurityMiddleware
